import Mathlib

/-!
# Verification of the MtGox streaming client core (pyalgotrade/mtgox/client.py)

Shallow embedding of the event-dispatch / request-correlation core of
`src/pyalgotrade/mtgox/client.py`:

* `QEvent` models the tagged events `WSClient` puts on its `Queue.Queue`
  (constants `ON_TICKER` .. `ON_DISCONNECTED`, lines 39-46).
* `ClientState` models the mutable fields of `Client` (`__resultCB`,
  `__remarkCB`, `__thread`, `__initializationOk`, `__stopped`,
  `__enableReconnection`, the four public notification sinks, and the
  current `WSClient` queue).  Observation-only ghost fields (`handled`,
  `invocations`) record which events were routed and which callbacks were
  invoked, so dispatch-order and invocation-count properties can be stated.
* Raised Python exceptions are modelled by `Except`, with the state at the
  raise point carried alongside the exception (`PyRes`).
* The mutually recursive loops (`dispatchImpl` at lines 319-352,
  `__onConnected` 236-252, `__onDisconnected` 254-264, `waitResponse`
  193-208, `requestPrivateIdKey` 219-234, `__initializeClient` 170-191)
  are embedded as one fuel-indexed interpreter `run` over the call tag
  `Call`; each `Call` branch is a line-by-line translation of the matching
  Python method.  Fuel only bounds the model execution depth; running out
  of fuel is the distinguished non-Python abort `PyExc.fuelExhausted`.

The transport base class `wsclient.WebSocketClient` and `httpclient` are
not part of the sources; where their behaviour matters it is modelled from
the spec (see the doc comments marked "Modelled from the spec").
-/

namespace MtGox

/-- Python exceptions that the modelled code can raise.  `userExc cid d`
is an exception raised by a user-supplied callback with identity `cid`
that was invoked with payload `d`.  `fuelExhausted` is not a Python
exception: it is the model artifact signalling that the execution bound
was reached, and it is never caught by modelled `except` clauses. -/
inductive PyExc where
  | assertionError
  | typeError
  | userExc (cid : Nat) (d : Nat)
  | privKeyError
  | alreadyRunning
  | initializationFailed
  | fuelExhausted
deriving DecidableEq

/-- Behaviour of a callback value stored in the correlator maps.
`user raises` is a caller-supplied callback: invoking it with payload `d`
raises `userExc` exactly when `raises d = true`.  `storePrivKey` is the
`onResult` closure built inside `requestPrivateIdKey` (line 221: it stores
the payload into the enclosing `out` dict).  `logRemark` is the
`onRemark` closure of `requestPrivateIdKey` (line 224: it only logs). -/
inductive CBAct where
  | user (raises : Nat → Bool)
  | storePrivKey
  | logRemark

/-- A Python callback value: an identity (so invocations can be counted)
plus its behaviour when invoked. -/
structure CB where
  cid : Nat
  act : CBAct

/-- A tagged event on the WSClient queue.  Payloads and request ids are
modelled as naturals (the code treats both as opaque). -/
inductive QEvent where
  | ticker (d : Nat)
  | wallet (d : Nat)
  | trade (d : Nat)
  | userOrder (d : Nat)
  | result (id : Nat) (d : Nat)
  | remark (id : Nat) (d : Nat)
  | connected
  | disconnected
deriving DecidableEq

/-- Event-kind constant `WSClient.ON_TICKER` (line 39). -/
def ON_TICKER : Nat := 1
/-- Event-kind constant `WSClient.ON_WALLET` (line 40). -/
def ON_WALLET : Nat := 2
/-- Event-kind constant `WSClient.ON_TRADE` (line 41). -/
def ON_TRADE : Nat := 3
/-- Event-kind constant `WSClient.ON_USER_ORDER` (line 42). -/
def ON_USER_ORDER : Nat := 4
/-- Event-kind constant `WSClient.ON_RESULT` (line 43). -/
def ON_RESULT : Nat := 5
/-- Event-kind constant `WSClient.ON_REMARK` (line 44). -/
def ON_REMARK : Nat := 6
/-- Event-kind constant `WSClient.ON_CONNECTED` (line 45). -/
def ON_CONNECTED : Nat := 7
/-- Event-kind constant `WSClient.ON_DISCONNECTED` (line 46). -/
def ON_DISCONNECTED : Nat := 8

/-- The kind tag an event is enqueued with (the first component of the
pairs put on the queue by the `WSClient.on*` methods, lines 56-101). -/
def kindOf : QEvent → Nat
  | .ticker _ => ON_TICKER
  | .wallet _ => ON_WALLET
  | .trade _ => ON_TRADE
  | .userOrder _ => ON_USER_ORDER
  | .result _ _ => ON_RESULT
  | .remark _ _ => ON_REMARK
  | .connected => ON_CONNECTED
  | .disconnected => ON_DISCONNECTED

/-- The mutable state of a `Client` object (fields set in `__init__`,
lines 122-149), together with the queue of the current `WSClient`, the
remaining transport scripts, and two observation-only logs. -/
structure ClientState where
  /-- `self.__paperTrading` (lines 144-149). -/
  paperTrading : Bool
  /-- `self.__enableReconnection` (line 139). -/
  enableReconnection : Bool
  /-- Whether `self.__thread` is not `None` (line 131 sets it to `None`;
  line 181 assigns a live thread object; nothing ever resets it). -/
  threadSet : Bool
  /-- `self.__initializationOk` (line 132), a three-valued flag. -/
  initializationOk : Option Bool
  /-- `self.__stopped` (line 133). -/
  stopped : Bool
  /-- The `Queue.Queue` of the current `self.__wsClient` (line 51),
  as the list of events the transport has pushed and the dispatch loop
  has not yet popped. -/
  wsQueue : List QEvent
  /-- Modelled from the spec: the transport-supplied opaque request
  identifier minted by `wsclient.WebSocketClient.requestPrivateIdKey`
  (missing source; section 3 of the spec calls it an opaque
  transport-supplied token).  Modelled as a fresh counter. -/
  nextReqId : Nat
  /-- Modelled from the spec: the events each successive transport
  session will push onto the fresh queue created by
  `__initializeClient` (line 177 builds a new `WSClient`, hence a new
  empty queue that the new connection then fills). -/
  scripts : List (List QEvent)
  /-- `self.__resultCB` (line 140), a dict from request id to callback
  (the stored value may be Python `None`). -/
  resultCB : List (Nat × Option CB)
  /-- `self.__remarkCB` (line 141). -/
  remarkCB : List (Nat × Option CB)
  /-- Payloads emitted on `self.__tickerEvent` (line 328). -/
  tickerEmits : List Nat
  /-- Payloads emitted on `self.__walletEvent` (line 330). -/
  walletEmits : List Nat
  /-- Payloads emitted on `self.__tradeEvent` (line 332). -/
  tradeEmits : List Nat
  /-- Payloads emitted on `self.__userOrderEvent` (line 334). -/
  userOrderEmits : List Nat
  /-- Ghost log: every callback invocation, as (callback identity,
  payload), in invocation order. -/
  invocations : List (Nat × Nat)
  /-- The `out` dict closed over by `requestPrivateIdKey` (line 220). -/
  privKeyOut : Option Nat
  /-- Ghost log: the events that passed the dispatch filter and were
  routed to a handler, in routing order. -/
  handled : List QEvent

/-- Result of a modelled Python computation: either a value with the
post-state, or a raised exception with the state at the raise point. -/
abbrev PyRes (α : Type) := Except (PyExc × ClientState) (α × ClientState)

/-- Lookup in a Python dict modelled as an association list. -/
def dictLookup {α : Type} : List (Nat × α) → Nat → Option α
  | [], _ => none
  | (k, v) :: t, key => if k = key then some v else dictLookup t key

/-- Python `key in dict`. -/
def dictMem {α : Type} (d : List (Nat × α)) (key : Nat) : Bool :=
  (dictLookup d key).isSome

/-- Python `dict[key] = v` (replace if present, else append). -/
def dictInsert {α : Type} (d : List (Nat × α)) (key : Nat) (v : α) :
    List (Nat × α) :=
  if dictMem d key then
    d.map (fun p => if p.1 = key then (key, v) else p)
  else
    d ++ [(key, v)]

/-- Python `del dict[key]`. -/
def dictErase {α : Type} (d : List (Nat × α)) (key : Nat) : List (Nat × α) :=
  d.filter (fun p => p.1 != key)

/-- `Client.__registerCallbacks` (lines 155-159): assert the id is absent
from both maps, then store both callbacks. -/
def registerCallbacks (s : ClientState) (requestId : Nat)
    (resultCB remarkCB : Option CB) : PyRes Unit :=
  if dictMem s.resultCB requestId then .error (.assertionError, s)
  else if dictMem s.remarkCB requestId then .error (.assertionError, s)
  else .ok ((), { s with
    resultCB := dictInsert s.resultCB requestId resultCB,
    remarkCB := dictInsert s.remarkCB requestId remarkCB })

/-- `Client.__unregisterCallbacks` (lines 161-165): assert the id is
present in both maps, then delete both entries. -/
def unregisterCallbacks (s : ClientState) (requestId : Nat) : PyRes Unit :=
  if !(dictMem s.resultCB requestId) then .error (.assertionError, s)
  else if !(dictMem s.remarkCB requestId) then .error (.assertionError, s)
  else .ok ((), { s with
    remarkCB := dictErase s.remarkCB requestId,
    resultCB := dictErase s.resultCB requestId })

/-- `Client.__callbacksRegistered` (lines 167-168). -/
def callbacksRegistered (s : ClientState) (requestId : Nat) : Bool :=
  dictMem s.resultCB requestId && dictMem s.remarkCB requestId

/-- Invoking a Python callback value: the invocation is recorded in the
ghost log, then the callback behaviour runs (possibly raising). -/
def invokeCB (s : ClientState) (cb : CB) (d : Nat) : PyRes Unit :=
  let s1 := { s with invocations := s.invocations ++ [(cb.cid, d)] }
  match cb.act with
  | .user raises =>
      if raises d then .error (.userExc cb.cid d, s1) else .ok ((), s1)
  | .storePrivKey => .ok ((), { s1 with privKeyOut := some d })
  | .logRemark => .ok ((), s1)

/-- `Client.__onResult` (lines 275-282): look up the result callback
(`KeyError` when absent is caught and only logged), unregister the id,
then invoke the callback if it is not `None`.  The callback is invoked
after the entry has been removed, and an exception it raises is not the
caught `KeyError`, so it propagates. -/
def onResult (s : ClientState) (requestId d : Nat) : PyRes Unit :=
  match dictLookup s.resultCB requestId with
  | none => .ok ((), s)
  | some cbOpt =>
    match unregisterCallbacks s requestId with
    | .error e => .error e
    | .ok (_, s1) =>
      match cbOpt with
      | none => .ok ((), s1)
      | some cb => invokeCB s1 cb d

/-- `Client.__onRemark` (lines 266-273): same shape as `__onResult`, on
the remark map. -/
def onRemark (s : ClientState) (requestId d : Nat) : PyRes Unit :=
  match dictLookup s.remarkCB requestId with
  | none => .ok ((), s)
  | some cbOpt =>
    match unregisterCallbacks s requestId with
    | .error e => .error e
    | .ok (_, s1) =>
      match cbOpt with
      | none => .ok ((), s1)
      | some cb => invokeCB s1 cb d

/-- `WSClient.onTrade` (lines 87-94): a trade notification is enqueued
only when it arrives on the public channel; the redundant private-channel
copy of the same trade is suppressed. -/
def wsOnTrade (q : List QEvent) (t : Nat) (publicChannel : Bool) :
    List QEvent :=
  if publicChannel then q ++ [QEvent.trade t] else q

/-- Whether the popped event passes the dispatch filter.  This is the
negation of the guard at line 323 (`eventFilter is not None and eventType
not in eventFilter`). -/
def passesFilter (filt : Option (List Nat)) (e : QEvent) : Bool :=
  match filt with
  | none => true
  | some l => l.contains (kindOf e)

/-- The filter `waitResponse` polls with (line 201). -/
def RESULT_REMARK_FILTER : List Nat := [ON_RESULT, ON_REMARK]

/-- Modelled from the spec: the timeout (30, line 229) that
`requestPrivateIdKey` passes to `waitResponse`, as a poll-iteration
budget for the bounded wait of spec section 4.6. -/
def privKeyWaitIters : Nat := 30

/-- Modelled from the spec: how many `pollOnce({Connected})` iterations
`__initializeClient` performs before the pump-thread termination check at
line 185 observes a dead thread (spec 4.5: poll until initialization
completes or the execution context terminates). -/
def initPollIters : Nat := 8

/-- Whether an exception is a Python exception, i.e. caught by the bare
`except Exception` at line 250; the fuel artifact is not. -/
def isPyException : PyExc → Bool
  | .fuelExhausted => false
  | _ => true

/-- Call tags for the mutually recursive methods of `Client`.  The loop
entries carry their own iteration budgets (the `time.time()` deadlines of
the source), distinct from the interpreter fuel. -/
inductive Call where
  /-- `Client.dispatchImpl(eventFilter)` (lines 319-352). -/
  | dispatch (filt : Option (List Nat))
  /-- `Client.__onConnected` (lines 236-252). -/
  | onConnected
  /-- `Client.__onDisconnected` (lines 254-264). -/
  | onDisconnected
  /-- `Client.requestPrivateIdKey` (lines 219-234). -/
  | requestPrivateIdKey
  /-- `Client.waitResponse(requestId, resultCB, remarkCB, timeout)`
  (lines 193-208); `timeoutIters` is the poll-iteration budget the
  `time.time() - start < timeout` deadline allows. -/
  | waitResponse (timeoutIters : Nat) (requestId : Nat)
      (resultCB remarkCB : Option CB)
  /-- The `while not done and time.time() - start < timeout` loop of
  `waitResponse` (lines 200-203). -/
  | waitLoop (iters : Nat) (requestId : Nat)
  /-- The `while not self.__stopped and not initialized` loop of
  `__onDisconnected` (lines 257-262). -/
  | reconnectLoop (iters : Nat)
  /-- `Client.__initializeClient` (lines 170-191). -/
  | initClient
  /-- The `while self.__initializationOk is None and
  self.__thread.is_alive()` loop of `__initializeClient`
  (lines 185-186). -/
  | connWait (iters : Nat)

/-- Values returned by the modelled methods. -/
inductive Val where
  | unit
  | b (x : Bool)
  | n (x : Nat)
  | ob (x : Option Bool)
deriving DecidableEq

/-- Identity of the `onResult` closure of `requestPrivateIdKey`. -/
def PRIV_RESULT_CB : Nat := 900
/-- Identity of the `onRemark` closure of `requestPrivateIdKey`. -/
def PRIV_REMARK_CB : Nat := 901

/-- Fuel-indexed interpreter for the mutually recursive methods of
`Client`.  Each `Call` branch is a direct translation of the matching
Python method; all recursive calls run at strictly smaller fuel, and fuel
zero aborts with the non-Python artifact `fuelExhausted`. -/
def run : Nat → Call → ClientState → PyRes Val
  | 0, _, s => .error (.fuelExhausted, s)
  | Nat.succ f, c, s =>
    match c with
    | .dispatch filt =>
      -- Lines 319-352.  `Queue.get` with an empty queue raises
      -- `Queue.Empty`, caught at line 350: return ret = False.
      match s.wsQueue with
      | [] => .ok (.b false, s)
      | e :: restQ =>
        let s1 := { s with wsQueue := restQ }
        if passesFilter filt e then
          let s2 := { s1 with handled := s1.handled ++ [e] }
          match e with
          | .ticker d =>
              .ok (.b true, { s2 with tickerEmits := s2.tickerEmits ++ [d] })
          | .wallet d =>
              .ok (.b true, { s2 with walletEmits := s2.walletEmits ++ [d] })
          | .trade d =>
              .ok (.b true, { s2 with tradeEmits := s2.tradeEmits ++ [d] })
          | .userOrder d =>
              .ok (.b true,
                { s2 with userOrderEmits := s2.userOrderEmits ++ [d] })
          | .result id d =>
              -- Lines 335-338: ret = False, then __onResult.
              (match onResult s2 id d with
               | .error e2 => .error e2
               | .ok (_, s3) => .ok (.b false, s3))
          | .remark id d =>
              -- Lines 339-342: ret = False, then __onRemark.
              (match onRemark s2 id d with
               | .error e2 => .error e2
               | .ok (_, s3) => .ok (.b false, s3))
          | .connected =>
              -- Lines 343-344: ret stays True.
              (match run f .onConnected s2 with
               | .error e2 => .error e2
               | .ok (_, s3) => .ok (.b true, s3))
          | .disconnected =>
              -- Lines 345-346: ret stays True.
              (match run f .onDisconnected s2 with
               | .error e2 => .error e2
               | .ok (_, s3) => .ok (.b true, s3))
        else
          -- Lines 323-324: event popped but outside the filter.
          .ok (.b false, s1)
    | .onConnected =>
      -- Lines 236-252.  unsubscribeChannel only talks to the transport.
      if s.paperTrading then
        .ok (.unit, { s with initializationOk := some true })
      else
        match run f .requestPrivateIdKey s with
        | .ok (_, s1) =>
            -- subscribePrivateChannel only talks to the transport.
            .ok (.unit, { s1 with initializationOk := some true })
        | .error (e2, s1) =>
            -- Line 250: `except Exception` catches every Python
            -- exception raised by the body.
            if isPyException e2 then
              .ok (.unit, { s1 with initializationOk := some false })
            else .error (e2, s1)
    | .onDisconnected =>
      -- Lines 254-264.
      if s.enableReconnection then run f (.reconnectLoop f) s
      else .ok (.unit, { s with stopped := true })
    | .requestPrivateIdKey =>
      -- Lines 219-234.  The fresh `out` dict of line 220 is the
      -- `privKeyOut` field; the request id is minted by the transport
      -- (modelled from the spec as a fresh counter).
      let s0 := { s with privKeyOut := none }
      let rid := s0.nextReqId
      let s1 := { s0 with nextReqId := rid + 1 }
      match run f (.waitResponse privKeyWaitIters rid
          (some ⟨PRIV_RESULT_CB, .storePrivKey⟩)
          (some ⟨PRIV_REMARK_CB, .logRemark⟩)) s1 with
      | .error e2 => .error e2
      | .ok (_, s2) =>
        match s2.privKeyOut with
        | none => .error (.privKeyError, s2)
        | some k => .ok (.n k, s2)
    | .waitResponse t requestId resultCB remarkCB =>
      -- Lines 193-208.
      match registerCallbacks s requestId resultCB remarkCB with
      | .error e2 => .error e2
      | .ok (_, s1) =>
        match run f (.waitLoop t requestId) s1 with
        | .ok (.b true, s2) =>
            -- done = True: the finally block skips the cleanup call.
            .ok (.b true, s2)
        | .ok (_, s2) =>
            -- done = False (deadline elapsed): the finally block at line
            -- 207 calls `self.__unregisterCallbacks()` with no
            -- requestId argument, which raises TypeError.
            .error (.typeError, s2)
        | .error (_, s2) =>
            -- The body raised with done = False: the finally block runs
            -- and its no-argument `self.__unregisterCallbacks()` call
            -- raises TypeError, which replaces the in-flight exception
            -- (Python 2 try/finally semantics).
            .error (.typeError, s2)
    | .waitLoop iters requestId =>
      -- Lines 200-203.
      match iters with
      | 0 => .ok (.b false, s)
      | Nat.succ k =>
        match run f (.dispatch (some RESULT_REMARK_FILTER)) s with
        | .error e2 => .error e2
        | .ok (_, s1) =>
          if callbacksRegistered s1 requestId then
            run f (.waitLoop k requestId) s1
          else .ok (.b true, s1)
    | .reconnectLoop iters =>
      -- Lines 257-262; `time.sleep(5)` has no state effect.
      if s.stopped then .ok (.unit, s)
      else
        match iters with
        | 0 => .error (.fuelExhausted, s)
        | Nat.succ k =>
          match run f .initClient s with
          | .error e2 => .error e2
          | .ok (.ob (some true), s1) => .ok (.unit, s1)
          | .ok (_, s1) => run f (.reconnectLoop k) s1
    | .initClient =>
      -- Lines 170-191: reset the flag, build a fresh WSClient (a fresh
      -- queue, filled by the next transport script), connect, start the
      -- pump thread, then poll filtered to {Connected}.
      let s0 := { s with initializationOk := none }
      let qn := match s0.scripts with
        | [] => ([], [])
        | q :: t => (q, t)
      let s1 := { s0 with
        wsQueue := qn.1, scripts := qn.2, threadSet := true }
      match run f (.connWait initPollIters) s1 with
      | .error e2 => .error e2
      | .ok (_, s2) => .ok (.ob s2.initializationOk, s2)
    | .connWait iters =>
      -- Lines 185-186.
      if s.initializationOk.isSome then .ok (.unit, s)
      else
        match iters with
        | 0 => .ok (.unit, s)
        | Nat.succ k =>
          match run f (.dispatch (some [ON_CONNECTED])) s with
          | .error e2 => .error e2
          | .ok (_, s1) => run f (.connWait k) s1

/-- `Client.start` (lines 296-301). -/
def start (fuel : Nat) (s : ClientState) : PyRes Unit :=
  if s.threadSet then .error (.alreadyRunning, s)
  else
    match run fuel .initClient s with
    | .error e2 => .error e2
    | .ok (.ob (some true), s1) => .ok ((), s1)
    | .ok (_, s1) => .error (.initializationFailed, { s1 with stopped := true })

/-- `Client.stop` (lines 303-310): set the stopped flag and ask the
transport to stop; `self.__thread` is not touched. -/
def stop (s : ClientState) : ClientState :=
  { s with stopped := true }

/-- `Client.join` (lines 312-314): wait for the pump thread; no client
state is modified. -/
def join (s : ClientState) : ClientState :=
  s

/-- A driver that performs `count` successive `dispatchImpl(None)` calls
(each with the same fuel budget), the way `Client.dispatch` (line 355)
is driven by a host loop. -/
def dispatchRepeat : Nat → Nat → ClientState → PyRes Unit
  | 0, _, s => .ok ((), s)
  | Nat.succ n, fuel, s =>
    match run fuel (.dispatch none) s with
    | .error e2 => .error e2
    | .ok (_, s1) => dispatchRepeat n fuel s1

/-- Whether an event is a command result or remark for a given id. -/
def isCmdFor (requestId : Nat) : QEvent → Bool
  | .result i _ => i == requestId
  | .remark i _ => i == requestId
  | _ => false

/-- A client state as `__init__` (lines 122-149) leaves a paper-trading
client with no queued events. -/
def initialState : ClientState :=
  { paperTrading := true
    enableReconnection := true
    threadSet := false
    initializationOk := none
    stopped := false
    wsQueue := []
    nextReqId := 0
    scripts := []
    resultCB := []
    remarkCB := []
    tickerEmits := []
    walletEmits := []
    tradeEmits := []
    userOrderEmits := []
    invocations := []
    privKeyOut := none
    handled := [] }

/-- The four public notification sinks of a state, together. -/
def sinksOf (s : ClientState) : List Nat × List Nat × List Nat × List Nat :=
  (s.tickerEmits, s.walletEmits, s.tradeEmits, s.userOrderEmits)

/-- The post-state of a modelled computation, whether it returned or
raised. -/
def stateOf {α : Type} : PyRes α → ClientState
  | .ok (_, s') => s'
  | .error (_, s') => s'

/-- A user callback with identity 5 that never raises. -/
def cb5 : CB := ⟨5, .user (fun _ => false)⟩

/-- A user callback with identity 6 that never raises. -/
def cb6 : CB := ⟨6, .user (fun _ => false)⟩

/-- A user callback with identity 5 that raises on every invocation. -/
def cbRaise : CB := ⟨5, .user (fun _ => true)⟩

/-- A client state with one queued command result for request id 100. -/
def c2state : ClientState :=
  { initialState with wsQueue := [QEvent.result 100 3] }

/-- A running live-trading client, reconnection enabled, with a pending
callback registration for request id 100 (as left behind by a timed-out
`waitResponse`), about to observe a disconnection; the next transport
session will deliver the connection event and the private-id-key result
for the freshly minted request id 0. -/
def c3state : ClientState :=
  { initialState with
    paperTrading := false
    enableReconnection := true
    threadSet := true
    initializationOk := some true
    wsQueue := [QEvent.disconnected]
    scripts := [[QEvent.connected, QEvent.result 0 42]]
    resultCB := [(100, some cb5)]
    remarkCB := [(100, some cb6)] }

/-- A client state with callbacks already registered for request id 5. -/
def c4state : ClientState :=
  { initialState with
    resultCB := [(5, some cb5)], remarkCB := [(5, some cb6)] }

/-- The state `waitResponse(100, cb5, cb6, _)` leaves behind after its
registration step on a fresh client. -/
def c1regState : ClientState :=
  { initialState with
    resultCB := [(100, some cb5)], remarkCB := [(100, some cb6)] }

/-- A client state with three queued events: an unrelated ticker, the
result for request id 7, and a trailing wallet update. -/
def c5state : ClientState :=
  { initialState with
    wsQueue := [QEvent.ticker 9, QEvent.result 7 3, QEvent.wallet 1] }

/-- A paper-trading client with reconnection disabled and one pushed
event of five different kinds. -/
def c9state : ClientState :=
  { initialState with
    enableReconnection := false
    wsQueue := [QEvent.ticker 1, QEvent.result 9 2, QEvent.connected,
      QEvent.disconnected, QEvent.trade 3] }

/-- A fresh paper-trading client whose first transport session delivers
the connection event. -/
def c10start : ClientState :=
  { initialState with scripts := [[QEvent.connected]] }

/-- The state of that client after its first `start` call. -/
def c10after : ClientState := stateOf (start 5 c10start)

end MtGox

namespace MtGox

/-- C1: the claim fails on the code.  On a fresh client with an empty
event queue (so no CommandResult or CommandRemark for request id 100 ever
arrives), `waitResponse(100, cb5, cb6, timeout)` does not return "not
resolved": the timeout path of the `finally` block (line 207) calls
`self.__unregisterCallbacks()` without the mandatory `requestId`
argument, so the call raises TypeError, the request id stays registered
in both correlator maps, and a subsequent registration of the same id
fails the assertion instead of succeeding. -/
theorem waitResponse_timeout_raises_typeError :
    run 6 (.waitResponse 3 100 (some cb5) (some cb6)) initialState
      = .error (.typeError, c1regState) ∧
    callbacksRegistered c1regState 100 = true ∧
    registerCallbacks c1regState 100 (some cb5) (some cb6)
      = .error (.assertionError, c1regState) :=
  ⟨rfl, rfl, rfl⟩

/-- C2: the claim fails on the code.  With a CommandResult for request id
100 queued and a result callback that raises, the correlator entry is
indeed removed before the callback runs (both maps are empty in the final
state and the callback was invoked exactly once), but the exception that
reaches the caller of `waitResponse` is not the callback exception: the
`finally` block (line 207) calls `self.__unregisterCallbacks()` without
its mandatory argument, and the resulting TypeError replaces the
in-flight callback exception under Python 2 try/finally semantics. -/
theorem waitResponse_callback_exception_masked :
    (match run 6 (.waitResponse 3 100 (some cbRaise) (some cb6)) c2state with
     | .error (.typeError, s1) =>
         s1.resultCB.isEmpty && s1.remarkCB.isEmpty &&
         decide (s1.invocations = [(5, 3)])
     | _ => false) = true := by
  rfl

/-- C3: the claim fails on the code.  Starting from a live-trading client
with reconnection enabled and a pending callback registration for request
id 100, dispatching the Disconnected event drives the full reconnection
sequence (a fresh transport session delivering Connected and the
private-id-key result), the client re-enters the Ready state
(`initializationOk = some true`), and the pre-disconnection registration
for id 100 is still present in the correlator: nothing in
`__onDisconnected` or `__initializeClient` clears `__resultCB` or
`__remarkCB`. -/
theorem reconnect_keeps_stale_registration :
    (match run 60 (.dispatch none) c3state with
     | .ok (.b true, sF) =>
         decide (sF.initializationOk = some true) &&
         callbacksRegistered sF 100 &&
         decide (sF.invocations = [(PRIV_RESULT_CB, 42)])
     | _ => false) = true := by
  rfl

/-- C4: registering callbacks for a request id that already has a pending
registration in either correlator map fails with the assertion at lines
156-157, and the state (in particular the existing registration) is
returned unchanged: nothing is overwritten. -/
theorem registerCallbacks_duplicate_asserts (s : ClientState)
    (requestId : Nat) (rcb mcb : Option CB)
    (h : dictMem s.resultCB requestId = true ∨
         dictMem s.remarkCB requestId = true) :
    registerCallbacks s requestId rcb mcb = .error (.assertionError, s) := by
  unfold registerCallbacks
  rcases h with h | h
  · simp [h]
  · by_cases h2 : dictMem s.resultCB requestId <;> simp [h, h2]

/-- Witness for C4 at a concrete state with id 5 already registered. -/
theorem registerCallbacks_duplicate_asserts_witness :
    (dictMem c4state.resultCB 5 = true ∨ dictMem c4state.remarkCB 5 = true) ∧
    registerCallbacks c4state 5 (some cbRaise) (some cbRaise)
      = .error (.assertionError, c4state) :=
  ⟨Or.inl (by decide),
   registerCallbacks_duplicate_asserts c4state 5 (some cbRaise)
     (some cbRaise) (Or.inl (by decide))⟩

/-- C6: when `dispatchImpl` runs with a non-null filter and the popped
event kind is not in the filter, the call returns False, the event is
consumed and not requeued (the post-state queue is exactly the remaining
tail), and no handler, correlator path, or public notification sink is
touched (every other state field is unchanged). -/
theorem dispatchImpl_discards_filtered (fuel : Nat) (s : ClientState)
    (l : List Nat) (e : QEvent) (restQ : List QEvent)
    (hq : s.wsQueue = e :: restQ)
    (hf : passesFilter (some l) e = false) :
    run (fuel + 1) (.dispatch (some l)) s
      = .ok (.b false, { s with wsQueue := restQ }) := by
  simp [run, hq, hf]

/-- Witness for C6: a ticker event dropped by the result/remark filter. -/
theorem dispatchImpl_discards_filtered_witness :
    ({ initialState with
        wsQueue := [QEvent.ticker 4, QEvent.wallet 2] } : ClientState).wsQueue
      = QEvent.ticker 4 :: [QEvent.wallet 2] ∧
    passesFilter (some RESULT_REMARK_FILTER) (QEvent.ticker 4) = false ∧
    run 3 (.dispatch (some RESULT_REMARK_FILTER))
        { initialState with wsQueue := [QEvent.ticker 4, QEvent.wallet 2] }
      = .ok (.b false,
          { initialState with wsQueue := [QEvent.wallet 2] }) :=
  ⟨rfl, by decide,
   dispatchImpl_discards_filtered 2
     { initialState with wsQueue := [QEvent.ticker 4, QEvent.wallet 2] }
     RESULT_REMARK_FILTER (QEvent.ticker 4) [QEvent.wallet 2] rfl (by decide)⟩

/-- C8: `WSClient.onTrade` enqueues a trade only when it arrives on the
public channel.  A trade delivered on both the public and a private
channel (in either order) is enqueued exactly once, and a trade delivered
only on a private channel is never enqueued. -/
theorem onTrade_public_channel_only :
    (∀ q t, wsOnTrade (wsOnTrade q t true) t false = q ++ [QEvent.trade t]) ∧
    (∀ q t, wsOnTrade (wsOnTrade q t false) t true = q ++ [QEvent.trade t]) ∧
    (∀ q t, wsOnTrade q t false = q) :=
  ⟨fun _ _ => rfl, fun _ _ => rfl, fun _ _ => rfl⟩

/-- Resolution through `__onResult` never touches a public notification
sink, on any of its paths (missing registration, assertion failure,
stored None callback, callback returning, callback raising). -/
lemma onResult_preserves_sinks (s : ClientState) (requestId d : Nat) :
    sinksOf (stateOf (onResult s requestId d)) = sinksOf s := by
  unfold onResult
  cases hl : dictLookup s.resultCB requestId with
  | none => rfl
  | some cbOpt =>
    have h1 : dictMem s.resultCB requestId = true := by
      simp [dictMem, hl]
    unfold unregisterCallbacks
    cases h2 : dictMem s.remarkCB requestId with
    | false => simp [h1, h2, stateOf, sinksOf]
    | true =>
      cases cbOpt with
      | none => simp [h1, h2, stateOf, sinksOf]
      | some cb =>
        obtain ⟨cid, act⟩ := cb
        unfold invokeCB
        cases act with
        | user raises =>
          by_cases hr : raises d <;>
            simp [h1, h2, hr, stateOf, sinksOf]
        | storePrivKey => simp [h1, h2, stateOf, sinksOf]
        | logRemark => simp [h1, h2, stateOf, sinksOf]

/-- Resolution through `__onRemark` never touches a public notification
sink, on any of its paths. -/
lemma onRemark_preserves_sinks (s : ClientState) (requestId d : Nat) :
    sinksOf (stateOf (onRemark s requestId d)) = sinksOf s := by
  unfold onRemark
  cases hl : dictLookup s.remarkCB requestId with
  | none => rfl
  | some cbOpt =>
    have h2 : dictMem s.remarkCB requestId = true := by
      simp [dictMem, hl]
    unfold unregisterCallbacks
    cases h1 : dictMem s.resultCB requestId with
    | false => simp [h1, h2, stateOf, sinksOf]
    | true =>
      cases cbOpt with
      | none => simp [h1, h2, stateOf, sinksOf]
      | some cb =>
        obtain ⟨cid, act⟩ := cb
        unfold invokeCB
        cases act with
        | user raises =>
          by_cases hr : raises d <;>
            simp [h1, h2, hr, stateOf, sinksOf]
        | storePrivKey => simp [h1, h2, stateOf, sinksOf]
        | logRemark => simp [h1, h2, stateOf, sinksOf]

/-- C7: the routing table of `dispatchImpl` for events that pass the
filter.  A Ticker, Wallet, Trade, or UserOrder event is re-emitted to
exactly its matching public notification sink (the post-state equation
shows every other field, in particular each other sink, unchanged) and
the call returns True.  A CommandResult or CommandRemark event is routed
exactly to the correlator resolution path (`__onResult` / `__onRemark` on
the popped state) and, whenever that path returns, the call returns
False; the last two conjuncts show the resolution path never modifies any
public notification sink. -/
theorem dispatchImpl_routing :
    (∀ fuel s filt d restQ, s.wsQueue = QEvent.ticker d :: restQ →
        passesFilter filt (QEvent.ticker d) = true →
        run (fuel + 1) (.dispatch filt) s = .ok (.b true,
          { s with
            wsQueue := restQ,
            handled := s.handled ++ [QEvent.ticker d],
            tickerEmits := s.tickerEmits ++ [d] })) ∧
    (∀ fuel s filt d restQ, s.wsQueue = QEvent.wallet d :: restQ →
        passesFilter filt (QEvent.wallet d) = true →
        run (fuel + 1) (.dispatch filt) s = .ok (.b true,
          { s with
            wsQueue := restQ,
            handled := s.handled ++ [QEvent.wallet d],
            walletEmits := s.walletEmits ++ [d] })) ∧
    (∀ fuel s filt d restQ, s.wsQueue = QEvent.trade d :: restQ →
        passesFilter filt (QEvent.trade d) = true →
        run (fuel + 1) (.dispatch filt) s = .ok (.b true,
          { s with
            wsQueue := restQ,
            handled := s.handled ++ [QEvent.trade d],
            tradeEmits := s.tradeEmits ++ [d] })) ∧
    (∀ fuel s filt d restQ, s.wsQueue = QEvent.userOrder d :: restQ →
        passesFilter filt (QEvent.userOrder d) = true →
        run (fuel + 1) (.dispatch filt) s = .ok (.b true,
          { s with
            wsQueue := restQ,
            handled := s.handled ++ [QEvent.userOrder d],
            userOrderEmits := s.userOrderEmits ++ [d] })) ∧
    (∀ fuel s filt requestId d restQ,
        s.wsQueue = QEvent.result requestId d :: restQ →
        passesFilter filt (QEvent.result requestId d) = true →
        run (fuel + 1) (.dispatch filt) s =
          (match onResult
              { s with
                wsQueue := restQ,
                handled := s.handled ++ [QEvent.result requestId d] }
              requestId d with
           | .ok (_, s3) => .ok (.b false, s3)
           | .error e2 => .error e2)) ∧
    (∀ fuel s filt requestId d restQ,
        s.wsQueue = QEvent.remark requestId d :: restQ →
        passesFilter filt (QEvent.remark requestId d) = true →
        run (fuel + 1) (.dispatch filt) s =
          (match onRemark
              { s with
                wsQueue := restQ,
                handled := s.handled ++ [QEvent.remark requestId d] }
              requestId d with
           | .ok (_, s3) => .ok (.b false, s3)
           | .error e2 => .error e2)) ∧
    (∀ s requestId d, sinksOf (stateOf (onResult s requestId d)) = sinksOf s) ∧
    (∀ s requestId d, sinksOf (stateOf (onRemark s requestId d)) = sinksOf s) := by
  refine ⟨?_, ?_, ?_, ?_, ?_, ?_,
    fun s i d => onResult_preserves_sinks s i d,
    fun s i d => onRemark_preserves_sinks s i d⟩
  · intro fuel s filt d restQ hq hf
    simp [run, hq, hf]
  · intro fuel s filt d restQ hq hf
    simp [run, hq, hf]
  · intro fuel s filt d restQ hq hf
    simp [run, hq, hf]
  · intro fuel s filt d restQ hq hf
    simp [run, hq, hf]
  · intro fuel s filt requestId d restQ hq hf
    cases hx : onResult { s with
        wsQueue := restQ,
        handled := s.handled ++ [QEvent.result requestId d] } requestId d with
    | ok v => obtain ⟨u, s3⟩ := v; simp [run, hq, hf, hx]
    | error e2 => simp [run, hq, hf, hx]
  · intro fuel s filt requestId d restQ hq hf
    cases hx : onRemark { s with
        wsQueue := restQ,
        handled := s.handled ++ [QEvent.remark requestId d] } requestId d with
    | ok v => obtain ⟨u, s3⟩ := v; simp [run, hq, hf, hx]
    | error e2 => simp [run, hq, hf, hx]

/-- Witness for C7: a concrete ticker event emitted, and a concrete
command result routed to the correlator with return value False. -/
theorem dispatchImpl_routing_witness :
    (({ initialState with wsQueue := [QEvent.ticker 4] } : ClientState).wsQueue
        = QEvent.ticker 4 :: [] ∧
      passesFilter none (QEvent.ticker 4) = true ∧
      run 3 (.dispatch none) { initialState with wsQueue := [QEvent.ticker 4] }
        = .ok (.b true,
            { initialState with
              wsQueue := [],
              handled := [QEvent.ticker 4], tickerEmits := [4] })) ∧
    (({ initialState with wsQueue := [QEvent.result 7 1] } : ClientState).wsQueue
        = QEvent.result 7 1 :: [] ∧
      passesFilter none (QEvent.result 7 1) = true ∧
      run 3 (.dispatch none) { initialState with wsQueue := [QEvent.result 7 1] }
        = (match onResult
            { initialState with
              wsQueue := [],
              handled := [QEvent.result 7 1] } 7 1 with
           | .ok (_, s3) => .ok (.b false, s3)
           | .error e2 => .error e2)) := by
  constructor
  · exact ⟨rfl, rfl,
      dispatchImpl_routing.1 2 { initialState with wsQueue := [QEvent.ticker 4] }
        none 4 [] rfl rfl⟩
  · exact ⟨rfl, rfl,
      dispatchImpl_routing.2.2.2.2.1 2
        { initialState with wsQueue := [QEvent.result 7 1] } none 7 1 [] rfl rfl⟩


/-- Popping one queued event that is neither a CommandResult nor a
CommandRemark for the watched id, under the result/remark filter, reports
nothing dispatched and leaves the correlator, invocation log, and the
rest of the queue untouched. -/
lemma dispatch_skips_other (f : Nat) (s : ClientState) (requestId : Nat)
    (rv mv : Option CB) (e : QEvent) (tail : List QEvent)
    (hres : s.resultCB = [(requestId, rv)])
    (hrem : s.remarkCB = [(requestId, mv)])
    (hq : s.wsQueue = e :: tail)
    (he : isCmdFor requestId e = false) :
    ∃ hl, run (f + 1) (.dispatch (some RESULT_REMARK_FILTER)) s
      = .ok (.b false, { s with wsQueue := tail, handled := hl }) := by
  cases e with
  | ticker dd =>
    exact ⟨s.handled, by simp [run, hq, passesFilter, RESULT_REMARK_FILTER, kindOf, ON_TICKER, ON_WALLET, ON_TRADE, ON_USER_ORDER, ON_RESULT, ON_REMARK, ON_CONNECTED, ON_DISCONNECTED]⟩
  | wallet dd =>
    exact ⟨s.handled, by simp [run, hq, passesFilter, RESULT_REMARK_FILTER, kindOf, ON_TICKER, ON_WALLET, ON_TRADE, ON_USER_ORDER, ON_RESULT, ON_REMARK, ON_CONNECTED, ON_DISCONNECTED]⟩
  | trade dd =>
    exact ⟨s.handled, by simp [run, hq, passesFilter, RESULT_REMARK_FILTER, kindOf, ON_TICKER, ON_WALLET, ON_TRADE, ON_USER_ORDER, ON_RESULT, ON_REMARK, ON_CONNECTED, ON_DISCONNECTED]⟩
  | userOrder dd =>
    exact ⟨s.handled, by simp [run, hq, passesFilter, RESULT_REMARK_FILTER, kindOf, ON_TICKER, ON_WALLET, ON_TRADE, ON_USER_ORDER, ON_RESULT, ON_REMARK, ON_CONNECTED, ON_DISCONNECTED]⟩
  | connected =>
    exact ⟨s.handled, by simp [run, hq, passesFilter, RESULT_REMARK_FILTER, kindOf, ON_TICKER, ON_WALLET, ON_TRADE, ON_USER_ORDER, ON_RESULT, ON_REMARK, ON_CONNECTED, ON_DISCONNECTED]⟩
  | disconnected =>
    exact ⟨s.handled, by simp [run, hq, passesFilter, RESULT_REMARK_FILTER, kindOf, ON_TICKER, ON_WALLET, ON_TRADE, ON_USER_ORDER, ON_RESULT, ON_REMARK, ON_CONNECTED, ON_DISCONNECTED]⟩
  | result i dd =>
    have hne : requestId ≠ i := by
      intro hcontra
      subst hcontra
      simp [isCmdFor] at he
    exact ⟨s.handled ++ [QEvent.result i dd], by
      simp [run, hq, passesFilter, RESULT_REMARK_FILTER, kindOf, ON_TICKER, ON_WALLET, ON_TRADE, ON_USER_ORDER, ON_RESULT, ON_REMARK, ON_CONNECTED, ON_DISCONNECTED, onResult,
        dictLookup, hres, hne]⟩
  | remark i dd =>
    have hne : requestId ≠ i := by
      intro hcontra
      subst hcontra
      simp [isCmdFor] at he
    exact ⟨s.handled ++ [QEvent.remark i dd], by
      simp [run, hq, passesFilter, RESULT_REMARK_FILTER, kindOf, ON_TICKER, ON_WALLET, ON_TRADE, ON_USER_ORDER, ON_RESULT, ON_REMARK, ON_CONNECTED, ON_DISCONNECTED, onRemark,
        dictLookup, hrem, hne]⟩


/-- The `waitResponse` poll loop resolves once the queued CommandResult
for the watched id is reached: every earlier event is consumed without
touching the registration, then the result event unregisters the id and
invokes the stored result callback exactly once. -/
lemma waitLoop_resolves (pre : List QEvent) :
    ∀ (f t : Nat) (s : ClientState) (requestId rc d : Nat) (p : Nat → Bool)
      (mv : Option CB) (restQ : List QEvent),
    s.resultCB = [(requestId, some ⟨rc, .user p⟩)] →
    s.remarkCB = [(requestId, mv)] →
    s.wsQueue = pre ++ QEvent.result requestId d :: restQ →
    (∀ e ∈ pre, isCmdFor requestId e = false) →
    p d = false →
    pre.length + 2 ≤ f →
    pre.length + 1 ≤ t →
    ∃ s', run f (.waitLoop t requestId) s = .ok (.b true, s') ∧
      s'.invocations = s.invocations ++ [(rc, d)] ∧
      s'.resultCB = [] ∧ s'.remarkCB = [] ∧ s'.wsQueue = restQ := by
  induction pre with
  | nil =>
    intro f t s requestId rc d p mv restQ hres hrem hq hpre hp hf ht
    obtain ⟨f2, rfl⟩ : ∃ f2, f = f2 + 2 := ⟨f - 2, by omega⟩
    obtain ⟨k, rfl⟩ : ∃ k, t = k + 1 := ⟨t - 1, by omega⟩
    refine ⟨{ s with
        wsQueue := restQ,
        handled := s.handled ++ [QEvent.result requestId d],
        resultCB := [], remarkCB := [],
        invocations := s.invocations ++ [(rc, d)] }, ?_, by simp, by simp,
      by simp, by simp⟩
    simp only [List.nil_append] at hq
    simp [run, hq, hres, hrem, hp, onResult, unregisterCallbacks, invokeCB,
      dictLookup, dictMem, dictErase, callbacksRegistered, passesFilter,
      RESULT_REMARK_FILTER, kindOf, ON_RESULT, ON_REMARK]
  | cons e pre ih =>
    intro f t s requestId rc d p mv restQ hres hrem hq hpre hp hf ht
    simp only [List.length_cons] at hf ht
    obtain ⟨f1, rfl⟩ : ∃ f1, f = f1 + 1 := ⟨f - 1, by omega⟩
    obtain ⟨k, rfl⟩ : ∃ k, t = k + 1 := ⟨t - 1, by omega⟩
    obtain ⟨f2, rfl⟩ : ∃ f2, f1 = f2 + 1 := ⟨f1 - 1, by omega⟩
    have hecmd : isCmdFor requestId e = false := hpre e (by simp)
    have hpre2 : ∀ x ∈ pre, isCmdFor requestId x = false :=
      fun x hx => hpre x (by simp [hx])
    simp only [List.cons_append] at hq
    obtain ⟨hl, hstep⟩ := dispatch_skips_other f2 s requestId
      (some ⟨rc, .user p⟩) mv e (pre ++ QEvent.result requestId d :: restQ)
      hres hrem hq hecmd
    have hreg : callbacksRegistered
        { s with
          wsQueue := pre ++ QEvent.result requestId d :: restQ,
          handled := hl } requestId = true := by
      simp [callbacksRegistered, dictMem, dictLookup, hres, hrem]
    have hunfold : run (f2 + 2) (.waitLoop (k + 1) requestId) s
        = (match run (f2 + 1) (.dispatch (some RESULT_REMARK_FILTER)) s with
           | .error e2 => .error e2
           | .ok (_, s1) =>
             if callbacksRegistered s1 requestId then
               run (f2 + 1) (.waitLoop k requestId) s1
             else .ok (.b true, s1)) := rfl
    have hloop : run (f2 + 2) (.waitLoop (k + 1) requestId) s
        = run (f2 + 1) (.waitLoop k requestId)
            { s with
              wsQueue := pre ++ QEvent.result requestId d :: restQ,
              handled := hl } := by
      rw [hunfold, hstep]
      simp [hreg]
    obtain ⟨s', h1, h2, h3, h4, h5⟩ := ih (f2 + 1) k
      { s with
        wsQueue := pre ++ QEvent.result requestId d :: restQ,
        handled := hl }
      requestId rc d p mv restQ (by simp [hres]) (by simp [hrem]) (by simp)
      hpre2 hp (by omega) (by omega)
    refine ⟨s', hloop.trans h1, ?_, h3, h4, h5⟩
    simpa using h2


/-- C5: when a CommandResult for the watched request id sits in the queue
within the deadline, `waitResponse` returns "resolved" (True), the result
callback is invoked exactly once with the result payload (the invocation
log grows by exactly that one entry), the remark callback is never
invoked, and the id is no longer registered on return. -/
theorem waitResponse_result_resolves (s : ClientState)
    (requestId rc d t fuel : Nat) (p : Nat → Bool) (mv : Option CB)
    (pre restQ : List QEvent)
    (hres : s.resultCB = []) (hrem : s.remarkCB = [])
    (hq : s.wsQueue = pre ++ QEvent.result requestId d :: restQ)
    (hpre : ∀ e ∈ pre, isCmdFor requestId e = false)
    (hp : p d = false)
    (hfuel : pre.length + 3 ≤ fuel) (ht : pre.length + 1 ≤ t) :
    ∃ s', run fuel (.waitResponse t requestId (some ⟨rc, .user p⟩) mv) s
        = .ok (.b true, s') ∧
      s'.invocations = s.invocations ++ [(rc, d)] ∧
      callbacksRegistered s' requestId = false ∧
      s'.wsQueue = restQ := by
  obtain ⟨f, rfl⟩ : ∃ f, fuel = f + 1 := ⟨fuel - 1, by omega⟩
  have hregstep : registerCallbacks s requestId (some ⟨rc, .user p⟩) mv
      = .ok ((), { s with
          resultCB := [(requestId, some ⟨rc, .user p⟩)],
          remarkCB := [(requestId, mv)] }) := by
    simp [registerCallbacks, dictMem, dictLookup, dictInsert, hres, hrem]
  have hunfold :
      run (f + 1) (.waitResponse t requestId (some ⟨rc, .user p⟩) mv) s
      = (match registerCallbacks s requestId (some ⟨rc, .user p⟩) mv with
         | .error e2 => .error e2
         | .ok (_, s1) =>
           match run f (.waitLoop t requestId) s1 with
           | .ok (.b true, s2) => .ok (.b true, s2)
           | .ok (_, s2) => .error (.typeError, s2)
           | .error (_, s2) => .error (.typeError, s2)) := rfl
  obtain ⟨s', h1, h2, h3, h4, h5⟩ := waitLoop_resolves pre f t
    { s with
      resultCB := [(requestId, some ⟨rc, .user p⟩)],
      remarkCB := [(requestId, mv)] }
    requestId rc d p mv restQ (by simp) (by simp) (by simpa using hq)
    hpre hp (by omega) ht
  refine ⟨s', ?_, by simpa using h2, ?_, h5⟩
  · rw [hunfold, hregstep]
    simp [h1]
  · simp [callbacksRegistered, dictMem, dictLookup, h3]


/-- One `dispatchImpl(None)` call on a paper-trading client with
reconnection disabled and an empty correlator consumes exactly the head
event, appends it to the routing log, and preserves the correlator and
the configuration flags, whatever the event kind. -/
lemma dispatch_none_step (fuel : Nat) (s : ClientState) (e : QEvent)
    (tail : List QEvent)
    (hq : s.wsQueue = e :: tail) (hres : s.resultCB = [])
    (hrem : s.remarkCB = []) (hp : s.paperTrading = true)
    (hr : s.enableReconnection = false) :
    ∃ b s1, run (fuel + 2) (.dispatch none) s = .ok (.b b, s1) ∧
      s1.wsQueue = tail ∧ s1.handled = s.handled ++ [e] ∧
      s1.resultCB = [] ∧ s1.remarkCB = [] ∧
      s1.paperTrading = true ∧ s1.enableReconnection = false := by
  cases e with
  | ticker dd =>
    refine ⟨true, { s with
        wsQueue := tail,
        handled := s.handled ++ [QEvent.ticker dd],
        tickerEmits := s.tickerEmits ++ [dd] },
      ?_, by simp, by simp, by simp [hres], by simp [hrem],
      by simp [hp], by simp [hr]⟩
    simp [run, hq, passesFilter]
  | wallet dd =>
    refine ⟨true, { s with
        wsQueue := tail,
        handled := s.handled ++ [QEvent.wallet dd],
        walletEmits := s.walletEmits ++ [dd] },
      ?_, by simp, by simp, by simp [hres], by simp [hrem],
      by simp [hp], by simp [hr]⟩
    simp [run, hq, passesFilter]
  | trade dd =>
    refine ⟨true, { s with
        wsQueue := tail,
        handled := s.handled ++ [QEvent.trade dd],
        tradeEmits := s.tradeEmits ++ [dd] },
      ?_, by simp, by simp, by simp [hres], by simp [hrem],
      by simp [hp], by simp [hr]⟩
    simp [run, hq, passesFilter]
  | userOrder dd =>
    refine ⟨true, { s with
        wsQueue := tail,
        handled := s.handled ++ [QEvent.userOrder dd],
        userOrderEmits := s.userOrderEmits ++ [dd] },
      ?_, by simp, by simp, by simp [hres], by simp [hrem],
      by simp [hp], by simp [hr]⟩
    simp [run, hq, passesFilter]
  | result i dd =>
    refine ⟨false, { s with
        wsQueue := tail,
        handled := s.handled ++ [QEvent.result i dd] },
      ?_, by simp, by simp, by simp [hres], by simp [hrem],
      by simp [hp], by simp [hr]⟩
    simp [run, hq, passesFilter, onResult, dictLookup, hres]
  | remark i dd =>
    refine ⟨false, { s with
        wsQueue := tail,
        handled := s.handled ++ [QEvent.remark i dd] },
      ?_, by simp, by simp, by simp [hres], by simp [hrem],
      by simp [hp], by simp [hr]⟩
    simp [run, hq, passesFilter, onRemark, dictLookup, hrem]
  | connected =>
    refine ⟨true, { s with
        wsQueue := tail,
        handled := s.handled ++ [QEvent.connected],
        initializationOk := some true },
      ?_, by simp, by simp, by simp [hres], by simp [hrem],
      by simp [hp], by simp [hr]⟩
    simp [run, hq, passesFilter, hp]
  | disconnected =>
    refine ⟨true, { s with
        wsQueue := tail,
        handled := s.handled ++ [QEvent.disconnected],
        stopped := true },
      ?_, by simp, by simp, by simp [hres], by simp [hrem],
      by simp [hp], by simp [hr]⟩
    simp [run, hq, passesFilter, hr]

/-- C9: on a paper-trading client with reconnection disabled and an empty
correlator, driving `dispatchImpl(None)` once per queued event consumes
the whole queue and routes the events in exactly the order they were
pushed (the routing log extension is the pushed sequence itself), so each
pushed event is delivered to its handler exactly once and in FIFO
order. -/
theorem dispatch_fifo (evs : List QEvent) :
    ∀ (fuel : Nat) (s : ClientState),
    s.wsQueue = evs → s.resultCB = [] → s.remarkCB = [] →
    s.paperTrading = true → s.enableReconnection = false →
    ∃ s', dispatchRepeat evs.length (fuel + 2) s = .ok ((), s') ∧
      s'.handled = s.handled ++ evs ∧ s'.wsQueue = [] := by
  induction evs with
  | nil =>
    intro fuel s hq hres hrem hp hr
    exact ⟨s, rfl, by simp, hq⟩
  | cons e evs ih =>
    intro fuel s hq hres hrem hp hr
    obtain ⟨b, s1, hstep, hw, hh, h1, h2, h3, h4⟩ :=
      dispatch_none_step fuel s e evs hq hres hrem hp hr
    obtain ⟨s', hrest, hh2, hw2⟩ := ih fuel s1 hw h1 h2 h3 h4
    refine ⟨s', ?_, ?_, hw2⟩
    · have hunfold : dispatchRepeat (e :: evs).length (fuel + 2) s
          = (match run (fuel + 2) (.dispatch none) s with
             | .error e2 => .error e2
             | .ok (_, s1) => dispatchRepeat evs.length (fuel + 2) s1) := rfl
      rw [hunfold, hstep]
      exact hrest
    · rw [hh2, hh]
      simp


/-- Registering callbacks never changes the worker-thread field. -/
lemma registerCallbacks_threadSet (s : ClientState) (requestId : Nat)
    (rcb mcb : Option CB) :
    (stateOf (registerCallbacks s requestId rcb mcb)).threadSet
      = s.threadSet := by
  unfold registerCallbacks
  by_cases h1 : dictMem s.resultCB requestId <;>
    by_cases h2 : dictMem s.remarkCB requestId <;>
      simp [h1, h2, stateOf]

/-- Result resolution never changes the worker-thread field. -/
lemma onResult_threadSet (s : ClientState) (requestId d : Nat) :
    (stateOf (onResult s requestId d)).threadSet = s.threadSet := by
  unfold onResult
  cases hl : dictLookup s.resultCB requestId with
  | none => rfl
  | some cbOpt =>
    have h1 : dictMem s.resultCB requestId = true := by
      simp [dictMem, hl]
    unfold unregisterCallbacks
    cases h2 : dictMem s.remarkCB requestId with
    | false => simp [h1, h2, stateOf]
    | true =>
      cases cbOpt with
      | none => simp [h1, h2, stateOf]
      | some cb =>
        obtain ⟨cid, act⟩ := cb
        unfold invokeCB
        cases act with
        | user raises =>
          by_cases hr : raises d <;> simp [h1, h2, hr, stateOf]
        | storePrivKey => simp [h1, h2, stateOf]
        | logRemark => simp [h1, h2, stateOf]

/-- Remark resolution never changes the worker-thread field. -/
lemma onRemark_threadSet (s : ClientState) (requestId d : Nat) :
    (stateOf (onRemark s requestId d)).threadSet = s.threadSet := by
  unfold onRemark
  cases hl : dictLookup s.remarkCB requestId with
  | none => rfl
  | some cbOpt =>
    have h2 : dictMem s.remarkCB requestId = true := by
      simp [dictMem, hl]
    unfold unregisterCallbacks
    cases h1 : dictMem s.resultCB requestId with
    | false => simp [h1, h2, stateOf]
    | true =>
      cases cbOpt with
      | none => simp [h1, h2, stateOf]
      | some cb =>
        obtain ⟨cid, act⟩ := cb
        unfold invokeCB
        cases act with
        | user raises =>
          by_cases hr : raises d <;> simp [h1, h2, hr, stateOf]
        | storePrivKey => simp [h1, h2, stateOf]
        | logRemark => simp [h1, h2, stateOf]

/-- Once the worker-thread field is set, no modelled method ever clears
it, whatever the outcome. -/
lemma run_preserves_threadSet :
    ∀ (fuel : Nat) (c : Call) (s : ClientState), s.threadSet = true →
      (stateOf (run fuel c s)).threadSet = true := by
  intro fuel
  induction fuel with
  | zero =>
    intro c s h
    simpa [run, stateOf] using h
  | succ f ih =>
    intro c s h
    cases c with
    | dispatch filt =>
      cases hq : s.wsQueue with
      | nil => simpa [run, stateOf, hq] using h
      | cons e tail =>
        by_cases hf : passesFilter filt e = true
        · cases e with
          | ticker dd => simpa [run, stateOf, hq, hf] using h
          | wallet dd => simpa [run, stateOf, hq, hf] using h
          | trade dd => simpa [run, stateOf, hq, hf] using h
          | userOrder dd => simpa [run, stateOf, hq, hf] using h
          | result i dd =>
            have hpr := onResult_threadSet
              { s with
                wsQueue := tail,
                handled := s.handled ++ [QEvent.result i dd] } i dd
            cases hx : onResult
                { s with
                  wsQueue := tail,
                  handled := s.handled ++ [QEvent.result i dd] } i dd with
            | ok v =>
              obtain ⟨u, s3⟩ := v
              rw [hx] at hpr
              simp [run, stateOf, hq, hf, hx]
              simpa [stateOf, h] using hpr
            | error e2 =>
              obtain ⟨ex, s3⟩ := e2
              rw [hx] at hpr
              simp [run, stateOf, hq, hf, hx]
              simpa [stateOf, h] using hpr
          | remark i dd =>
            have hpr := onRemark_threadSet
              { s with
                wsQueue := tail,
                handled := s.handled ++ [QEvent.remark i dd] } i dd
            cases hx : onRemark
                { s with
                  wsQueue := tail,
                  handled := s.handled ++ [QEvent.remark i dd] } i dd with
            | ok v =>
              obtain ⟨u, s3⟩ := v
              rw [hx] at hpr
              simp [run, stateOf, hq, hf, hx]
              simpa [stateOf, h] using hpr
            | error e2 =>
              obtain ⟨ex, s3⟩ := e2
              rw [hx] at hpr
              simp [run, stateOf, hq, hf, hx]
              simpa [stateOf, h] using hpr
          | connected =>
            have h2 := ih .onConnected
              { s with
                wsQueue := tail,
                handled := s.handled ++ [QEvent.connected] } (by simpa using h)
            cases hx : run f .onConnected
                { s with
                  wsQueue := tail,
                  handled := s.handled ++ [QEvent.connected] } with
            | ok v =>
              obtain ⟨u, s3⟩ := v
              rw [hx] at h2
              simpa [run, stateOf, hq, hf, hx] using h2
            | error e2 =>
              obtain ⟨ex, s3⟩ := e2
              rw [hx] at h2
              simpa [run, stateOf, hq, hf, hx] using h2
          | disconnected =>
            have h2 := ih .onDisconnected
              { s with
                wsQueue := tail,
                handled := s.handled ++ [QEvent.disconnected] } (by simpa using h)
            cases hx : run f .onDisconnected
                { s with
                  wsQueue := tail,
                  handled := s.handled ++ [QEvent.disconnected] } with
            | ok v =>
              obtain ⟨u, s3⟩ := v
              rw [hx] at h2
              simpa [run, stateOf, hq, hf, hx] using h2
            | error e2 =>
              obtain ⟨ex, s3⟩ := e2
              rw [hx] at h2
              simpa [run, stateOf, hq, hf, hx] using h2
        · simpa [run, stateOf, hq, hf] using h
    | onConnected =>
      by_cases hp : s.paperTrading = true
      · simpa [run, stateOf, hp] using h
      · have h2 := ih .requestPrivateIdKey s h
        cases hx : run f .requestPrivateIdKey s with
        | ok v =>
          obtain ⟨u, s3⟩ := v
          rw [hx] at h2
          simpa [run, stateOf, hp, hx] using h2
        | error e2 =>
          obtain ⟨ex, s3⟩ := e2
          rw [hx] at h2
          by_cases hpy : isPyException ex = true <;>
            simpa [run, stateOf, hp, hx, hpy] using h2
    | onDisconnected =>
      by_cases hr : s.enableReconnection = true
      · have h2 := ih (.reconnectLoop f) s h
        simpa [run, stateOf, hr] using h2
      · simpa [run, stateOf, hr] using h
    | requestPrivateIdKey =>
      have h2 := ih (.waitResponse privKeyWaitIters s.nextReqId
          (some ⟨PRIV_RESULT_CB, .storePrivKey⟩)
          (some ⟨PRIV_REMARK_CB, .logRemark⟩))
        { s with privKeyOut := none, nextReqId := s.nextReqId + 1 }
        (by simpa using h)
      cases hx : run f (.waitResponse privKeyWaitIters s.nextReqId
          (some ⟨PRIV_RESULT_CB, .storePrivKey⟩)
          (some ⟨PRIV_REMARK_CB, .logRemark⟩))
          { s with privKeyOut := none, nextReqId := s.nextReqId + 1 } with
      | ok v =>
        obtain ⟨u, s3⟩ := v
        rw [hx] at h2
        cases hpk : s3.privKeyOut with
        | none => simpa [run, stateOf, hx, hpk] using h2
        | some k => simpa [run, stateOf, hx, hpk] using h2
      | error e2 =>
        obtain ⟨ex, s3⟩ := e2
        rw [hx] at h2
        simpa [run, stateOf, hx] using h2
    | waitResponse t rid rcb mcb =>
      have hper := registerCallbacks_threadSet s rid rcb mcb
      cases hx : registerCallbacks s rid rcb mcb with
      | error e2 =>
        obtain ⟨ex, s3⟩ := e2
        rw [hx] at hper
        simp [run, stateOf, hx]
        simpa [stateOf, h] using hper
      | ok v =>
        obtain ⟨u, s1⟩ := v
        rw [hx] at hper
        have hs1 : s1.threadSet = true := by
          simpa [stateOf, h] using hper
        have h2 := ih (.waitLoop t rid) s1 hs1
        cases hy : run f (.waitLoop t rid) s1 with
        | ok v2 =>
          obtain ⟨val, s2⟩ := v2
          rw [hy] at h2
          rcases val with _ | bx | nx | obx
          · simpa [run, stateOf, hx, hy] using h2
          · cases bx <;> simpa [run, stateOf, hx, hy] using h2
          · simpa [run, stateOf, hx, hy] using h2
          · simpa [run, stateOf, hx, hy] using h2
        | error e2 =>
          obtain ⟨ex, s2⟩ := e2
          rw [hy] at h2
          simpa [run, stateOf, hx, hy] using h2
    | waitLoop iters rid =>
      cases iters with
      | zero => simpa [run, stateOf] using h
      | succ k =>
        have h2 := ih (.dispatch (some RESULT_REMARK_FILTER)) s h
        cases hx : run f (.dispatch (some RESULT_REMARK_FILTER)) s with
        | error e2 =>
          obtain ⟨ex, s1⟩ := e2
          rw [hx] at h2
          simpa [run, stateOf, hx] using h2
        | ok v =>
          obtain ⟨u, s1⟩ := v
          rw [hx] at h2
          have hs1 : s1.threadSet = true := by simpa [stateOf] using h2
          by_cases hreg : callbacksRegistered s1 rid = true
          · have h3 := ih (.waitLoop k rid) s1 hs1
            simpa [run, stateOf, hx, hreg] using h3
          · simpa [run, stateOf, hx, hreg] using hs1
    | reconnectLoop iters =>
      by_cases hst : s.stopped = true
      · simpa [run, stateOf, hst] using h
      · cases iters with
        | zero => simpa [run, stateOf, hst] using h
        | succ k =>
          have h2 := ih .initClient s h
          cases hx : run f .initClient s with
          | error e2 =>
            obtain ⟨ex, s1⟩ := e2
            rw [hx] at h2
            simpa [run, stateOf, hst, hx] using h2
          | ok v =>
            obtain ⟨val, s1⟩ := v
            rw [hx] at h2
            have hs1 : s1.threadSet = true := by simpa [stateOf] using h2
            have h3 := ih (.reconnectLoop k) s1 hs1
            rcases val with _ | bx | nx | obx
            · simpa [run, stateOf, hst, hx] using h3
            · simpa [run, stateOf, hst, hx] using h3
            · simpa [run, stateOf, hst, hx] using h3
            · rcases obx with _ | bb
              · simpa [run, stateOf, hst, hx] using h3
              · cases bb
                · simpa [run, stateOf, hst, hx] using h3
                · simpa [run, stateOf, hst, hx] using hs1
    | initClient =>
      cases hsc : s.scripts with
      | nil =>
        have h2 := ih (.connWait initPollIters)
          { s with
            initializationOk := none, wsQueue := [], scripts := [],
            threadSet := true } (by simp)
        cases hx : run f (.connWait initPollIters)
            { s with
              initializationOk := none, wsQueue := [], scripts := [],
              threadSet := true } with
        | ok v =>
          obtain ⟨u, s2⟩ := v
          rw [hx] at h2
          simpa [run, stateOf, hsc, hx] using h2
        | error e2 =>
          obtain ⟨ex, s2⟩ := e2
          rw [hx] at h2
          simpa [run, stateOf, hsc, hx] using h2
      | cons q qs =>
        have h2 := ih (.connWait initPollIters)
          { s with
            initializationOk := none, wsQueue := q, scripts := qs,
            threadSet := true } (by simp)
        cases hx : run f (.connWait initPollIters)
            { s with
              initializationOk := none, wsQueue := q, scripts := qs,
              threadSet := true } with
        | ok v =>
          obtain ⟨u, s2⟩ := v
          rw [hx] at h2
          simpa [run, stateOf, hsc, hx] using h2
        | error e2 =>
          obtain ⟨ex, s2⟩ := e2
          rw [hx] at h2
          simpa [run, stateOf, hsc, hx] using h2
    | connWait iters =>
      by_cases hio : s.initializationOk.isSome = true
      · simpa [run, stateOf, hio] using h
      · cases iters with
        | zero => simpa [run, stateOf, hio] using h
        | succ k =>
          have h2 := ih (.dispatch (some [ON_CONNECTED])) s h
          cases hx : run f (.dispatch (some [ON_CONNECTED])) s with
          | error e2 =>
            obtain ⟨ex, s1⟩ := e2
            rw [hx] at h2
            simpa [run, stateOf, hio, hx] using h2
          | ok v =>
            obtain ⟨u, s1⟩ := v
            rw [hx] at h2
            have hs1 : s1.threadSet = true := by simpa [stateOf] using h2
            have h3 := ih (.connWait k) s1 hs1
            simpa [run, stateOf, hio, hx] using h3


/-- `__initializeClient` always leaves the worker-thread field set,
whatever its outcome: the thread is started (line 181) before the wait
loop runs, and nothing afterwards clears it. -/
lemma initClient_sets_threadSet (f : Nat) (s : ClientState) :
    (stateOf (run (f + 1) .initClient s)).threadSet = true := by
  cases hsc : s.scripts with
  | nil =>
    have h2 := run_preserves_threadSet f (.connWait initPollIters)
      { s with
        initializationOk := none, wsQueue := [], scripts := [],
        threadSet := true } (by simp)
    cases hx : run f (.connWait initPollIters)
        { s with
          initializationOk := none, wsQueue := [], scripts := [],
          threadSet := true } with
    | ok v =>
      obtain ⟨u, s2⟩ := v
      rw [hx] at h2
      simpa [run, stateOf, hsc, hx] using h2
    | error e2 =>
      obtain ⟨ex, s2⟩ := e2
      rw [hx] at h2
      simpa [run, stateOf, hsc, hx] using h2
  | cons q qs =>
    have h2 := run_preserves_threadSet f (.connWait initPollIters)
      { s with
        initializationOk := none, wsQueue := q, scripts := qs,
        threadSet := true } (by simp)
    cases hx : run f (.connWait initPollIters)
        { s with
          initializationOk := none, wsQueue := q, scripts := qs,
          threadSet := true } with
    | ok v =>
      obtain ⟨u, s2⟩ := v
      rw [hx] at h2
      simpa [run, stateOf, hsc, hx] using h2
    | error e2 =>
      obtain ⟨ex, s2⟩ := e2
      rw [hx] at h2
      simpa [run, stateOf, hsc, hx] using h2

/-- C10: the client is single-use.  Calling `start` on a state whose
worker-thread reference is set raises "Already running" and changes
nothing; any actual `start` call (successful or not) leaves the
worker-thread reference set; and `stop` and `join` never clear it, so
every subsequent `start` raises "Already running". -/
theorem start_single_use :
    (∀ fuel s, s.threadSet = true →
        start fuel s = .error (.alreadyRunning, s)) ∧
    (∀ fuel s, (stateOf (start (fuel + 1) s)).threadSet = true) ∧
    (∀ s, (stop s).threadSet = s.threadSet ∧ join s = s) := by
  refine ⟨?_, ?_, fun s => ⟨rfl, rfl⟩⟩
  · intro fuel s h
    simp [start, h]
  · intro fuel s
    by_cases h : s.threadSet = true
    · simp [start, h, stateOf]
    · have hB := initClient_sets_threadSet fuel s
      cases hx : run (fuel + 1) .initClient s with
      | error e2 =>
        obtain ⟨ex, s1⟩ := e2
        rw [hx] at hB
        simpa [start, h, stateOf, hx] using hB
      | ok v =>
        obtain ⟨val, s1⟩ := v
        rw [hx] at hB
        rcases val with _ | bx | nx | obx
        · simpa [start, h, stateOf, hx] using hB
        · simpa [start, h, stateOf, hx] using hB
        · simpa [start, h, stateOf, hx] using hB
        · rcases obx with _ | bb
          · simpa [start, h, stateOf, hx] using hB
          · cases bb <;> simpa [start, h, stateOf, hx] using hB


theorem waitResponse_result_resolves_witness :
    ∃ s', run 9 (.waitResponse 5 7 (some ⟨5, .user fun _ => false⟩)
        (some cb6)) c5state = .ok (.b true, s') ∧
      s'.invocations = c5state.invocations ++ [(5, 3)] ∧
      callbacksRegistered s' 7 = false ∧
      s'.wsQueue = [QEvent.wallet 1] :=
  waitResponse_result_resolves c5state 7 5 3 5 9 (fun _ => false) (some cb6)
    [QEvent.ticker 9] [QEvent.wallet 1] rfl rfl rfl (by decide) rfl
    (by decide) (by decide)

theorem dispatch_fifo_witness :
    ∃ s', dispatchRepeat ([QEvent.ticker 1, QEvent.result 9 2,
        QEvent.connected, QEvent.disconnected, QEvent.trade 3] :
          List QEvent).length (0 + 2) c9state = .ok ((), s') ∧
      s'.handled = c9state.handled ++ [QEvent.ticker 1, QEvent.result 9 2,
        QEvent.connected, QEvent.disconnected, QEvent.trade 3] ∧
      s'.wsQueue = [] :=
  dispatch_fifo [QEvent.ticker 1, QEvent.result 9 2, QEvent.connected,
    QEvent.disconnected, QEvent.trade 3] 0 c9state rfl rfl rfl rfl rfl

theorem start_single_use_witness :
    c10after.threadSet = true ∧
    start 3 c10after = .error (.alreadyRunning, c10after) ∧
    (stateOf (start (3 + 1) c10after)).threadSet = true ∧
    (stop c10after).threadSet = c10after.threadSet ∧ join c10after = c10after :=
  ⟨rfl, start_single_use.1 3 c10after rfl, start_single_use.2.1 3 c10after,
    (start_single_use.2.2 c10after).1, (start_single_use.2.2 c10after).2⟩

end MtGox
